import Mathlib

/-!
Verification of the `KHR_materials_pbrSpecularGlossiness` importer module of
glTF-Blender-IO, a shallow embedding of
`io_scene_gltf2/blender/imp/KHR_materials_pbrSpecularGlossiness.py`.

The module has three functions:
  * `glossiness` converts a glossiness factor and optional texture into a
    roughness wiring on the principled BSDF (0, 1 or 2 extra math nodes);
  * `pbr_specular_glossiness` assembles the whole node tree for one material;
  * `calc_locations` lays out the six blocks of the node graph vertically.

Node-graph construction is modelled by explicit state passing on a
`GraphState` (created nodes, created links, socket default values, a fresh-id
counter).  Collaborator sub-builders that live in sibling files not shipped
with the sources (`base_color`, `emission`, `normal`, `occlusion`,
`color_factor_and_texture`, `make_settings_node`, `texture`) are modelled
from the specification, as recorded calls or minimal constructions.
Python floats are modelled by rationals.
-/

namespace SpecGloss

/-- A parsed texture reference (the model of `TextureInfo`); only its
identity matters to this module, so we keep the texture index. -/
structure TexRef where
  index : Nat
deriving DecidableEq

/-- The raw value stored under the `specularGlossinessTexture` key of the
extension dict: Python `None`, an empty dict (both falsy), or a non-empty
texture dict that `TextureInfo.from_dict` parses into a `TexRef`. -/
inductive TexVal where
  | pyNone : TexVal
  | emptyDict : TexVal
  | texDict (t : TexRef) : TexVal
deriving DecidableEq

/-- Python truthiness of a `TexVal`: `None` and `{}` are falsy. -/
def TexVal.truthy : TexVal → Bool
  | .pyNone => false
  | .emptyDict => false
  | .texDict _ => true

/-- The `KHR_materials_pbrSpecularGlossiness` extension dict.  `none` in a
field means the key is absent; `diffuseTexture` records key presence only
(the value itself is consumed by a sibling module). -/
structure Ext where
  glossinessFactor : Option ℚ := none
  specularFactor : Option (ℚ × ℚ × ℚ) := none
  specularGlossinessTexture : Option TexVal := none
  diffuseTexture : Bool := false
deriving DecidableEq

/-- The empty extension dict (what `mh.get_ext(..., {})` falls back to). -/
def Ext.empty : Ext := {}

/-- `TextureInfo.from_dict(tex_info_dict) if tex_info_dict else None`:
the texture actually bound by the extension dict.  A missing key or a falsy
value both yield `none`. -/
def boundTex (ext : Ext) : Option TexRef :=
  match ext.specularGlossinessTexture with
  | some (TexVal.texDict t) => some t
  | _ => none

/-- A socket handle in the node graph under construction. `inp`/`outp` are
index-keyed sockets of a created node, `named` is a name-keyed input of a
created node (used for the principled BSDF), `texAlpha`/`texColor` are the
alpha/color outputs of a created image-texture node. -/
inductive Socket where
  | inp (id idx : Nat) : Socket
  | outp (id idx : Nat) : Socket
  | named (id : Nat) (name : String) : Socket
  | texAlpha (id : Nat) : Socket
  | texColor (id : Nat) : Socket
deriving DecidableEq

/-- A record of one node created in the shader graph. -/
structure NodeRec where
  id : Nat
  ntype : String
  label : String := ""
  operation : String := ""
  location : ℚ × ℚ
  use_clamp : Bool := false
  is_data : Bool := false
  image : Option Nat := none
deriving DecidableEq

/-- The state of the node graph being built for one material: nodes created
so far, links created so far (source output socket, destination input
socket), socket default-value assignments (newest first), and the id to give
the next created node. -/
structure GraphState where
  nodes : List NodeRec := []
  links : List (Socket × Socket) := []
  socket_defaults : List (Socket × ℚ) := []
  nextId : Nat := 0
deriving DecidableEq

/-- The empty node graph a material import starts from. -/
def GraphState.init : GraphState := {}

/-- `mh.nodes.new(...)`: append a node record and bump the id counter. -/
def addNode (n : NodeRec) (g : GraphState) : GraphState :=
  { g with nodes := g.nodes ++ [n], nextId := g.nextId + 1 }

/-- `mh.links.new(src, dst)`: append a link. -/
def addLink (src dst : Socket) (g : GraphState) : GraphState :=
  { g with links := g.links ++ [(src, dst)] }

/-- `socket.default_value = v`: record a default assignment (newest first). -/
def setDefault (s : Socket) (v : ℚ) (g : GraphState) : GraphState :=
  { g with socket_defaults := (s, v) :: g.socket_defaults }

/-- Look up the current default value of a socket (newest assignment wins). -/
def lookupD : List (Socket × ℚ) → Socket → Option ℚ
  | [], _ => none
  | (k, v) :: rest, s => if k = s then some v else lookupD rest s

/-- Number of math nodes (`ShaderNodeMath`) in the graph. -/
def mathCount (g : GraphState) : Nat :=
  g.nodes.countP (fun n => decide (n.ntype = "ShaderNodeMath"))

/-- Modelled from the spec: the texture-node constructor of `texture.py`
(not among the shipped sources).  Per the external-interface section it
accepts a texture reference, a target location, a display label, destination
color/alpha sockets and a flag marking the sample as non-color data; it
creates one image-texture node sampling the referenced texture and routes
its color output to the color socket and its alpha output to the alpha
socket, when those sockets are given. -/
def texture (ti : TexRef) (location : ℚ × ℚ) (label : String)
    (color_socket alpha_socket : Option Socket) (is_data : Bool)
    (g : GraphState) : GraphState :=
  let tid := g.nextId
  let g1 := addNode { id := tid, ntype := "ShaderNodeTexImage", label := label,
                      location := location, is_data := is_data,
                      image := some ti.index } g
  let g2 := match color_socket with
            | some s => addLink (Socket.texColor tid) s g1
            | none => g1
  match alpha_socket with
  | some s => addLink (Socket.texAlpha tid) s g2
  | none => g2

/-- The `glossiness` function: convert `glossinessFactor` and the optional
`specularGlossinessTexture` into a roughness wiring on `roughness_socket`.
Mirrors the Python line by line: factor defaults to `1.0`; with no bound
texture the socket default is set to `max(0, min(1, 1 - factor))`; otherwise
a clamped SUBTRACT node (input 0 fixed to `1.0`) drives the socket, fed on
input 1 either directly by the texture alpha (factor = 1) or through a
clamped MULTIPLY node whose input 1 is the factor. -/
def glossiness (ext : Ext) (location : ℚ × ℚ) (roughness_socket : Socket)
    (g : GraphState) : GraphState :=
  let factor := ext.glossinessFactor.getD 1
  let tex_info := boundTex ext
  let x := location.1
  let y := location.2
  match tex_info with
  | none => setDefault roughness_socket (max 0 (min 1 (1 - factor))) g
  | some ti =>
    let subId := g.nextId
    let g1 := addNode { id := subId, ntype := "ShaderNodeMath",
                        label := "1 - Glossiness", operation := "SUBTRACT",
                        location := (x - 140, y - 50), use_clamp := true } g
    let g2 := setDefault (Socket.inp subId 0) 1 g1
    let g3 := addLink (Socket.outp subId 0) roughness_socket g2
    let glossiness_input_socket := Socket.inp subId 1
    if factor ≠ 1 then
      let mulId := g3.nextId
      let g4 := addNode { id := mulId, ntype := "ShaderNodeMath",
                          label := "Glossiness Factor", operation := "MULTIPLY",
                          location := (x - 340, y), use_clamp := true } g3
      let g5 := setDefault (Socket.inp mulId 1) factor g4
      let g6 := addLink (Socket.outp mulId 0) glossiness_input_socket g5
      texture ti (x - 540, y) "SPECULAR GLOSSINESS" none
        (some (Socket.inp mulId 0)) true g6
    else
      texture ti (x - 340, y) "SPECULAR GLOSSINESS" none
        (some glossiness_input_socket) true g3

/-- The shared settings node cached on the material helper (occlusion
wiring); only the fields this module touches are kept. -/
structure SettingsNode where
  location : ℚ × ℚ
  width : ℚ
deriving DecidableEq

/-- The material record (`mh.pymat`): presence of occlusion/normal
textures is all this module reads from it. -/
structure PyMat where
  occlusion_texture : Bool
  normal_texture : Bool
deriving DecidableEq

/-- The material-helper context supplied by the importer: the material
record, the vertex-color flag, the needs-emissive predicate, the decoded
extension dict (absent when the material does not carry the extension) and
the lazily created shared settings node. -/
structure MaterialHelper where
  pymat : PyMat
  vertex_color : Bool
  needs_emissive : Bool
  ext : Option Ext
  settings_node : Option SettingsNode
deriving DecidableEq

/-- `mh.get_ext('KHR_materials_pbrSpecularGlossiness', {})`. -/
def MaterialHelper.get_ext (mh : MaterialHelper) : Ext :=
  mh.ext.getD Ext.empty

/-- Modelled from the spec: `make_settings_node` of `pbrMetallicRoughness.py`
(not among the shipped sources) creates the shared settings node used for
occlusion.  Its initial placement is irrelevant here because this module
immediately overwrites `location` and `width`. -/
def make_settings_node : SettingsNode :=
  { location := (0, 0), width := 0 }

/-- The six layout blocks of the node graph, in their fixed stacking
order. -/
inductive Block where
  | occlusion : Block
  | diffuse : Block
  | glossiness : Block
  | normal : Block
  | specular : Block
  | emission : Block
deriving DecidableEq, Fintype

/-- The block that directly follows a block in the stacking order. -/
def nextBlock : Block → Option Block
  | .occlusion => some .diffuse
  | .diffuse => some .glossiness
  | .glossiness => some .normal
  | .normal => some .specular
  | .specular => some .emission
  | .emission => none

/-- The raw (pre-centering) layout of `calc_locations`, parameterised by the
five gate conditions: occlusion texture present, diffuse texture or vertex
color, `specularGlossinessTexture` key present, normal texture present,
needs-emissive.  Returns the raw location of each block and the total
stacked height `-y`. -/
def layout (occ dif sg nrm emi : Bool) : (Block → ℚ × ℚ) × ℚ :=
  let x : ℚ := -200
  let y0 : ℚ := 0
  let height : ℚ := 460
  let loc_occ := (x, y0)
  let y1 := if occ then y0 - height else y0
  let loc_dif := (x, y1)
  let y2 := if dif then y1 - height else y1
  let loc_glo := (x, y2)
  let y3 := if sg then y2 - height else y2
  let loc_nrm := (x, y3)
  let y4 := if nrm then y3 - height else y3
  let loc_spe := (x, y4)
  let y5 := if sg then y4 - height else y4
  let loc_emi := (x, y5)
  let y6 := if emi then y5 - height else y5
  (fun b => match b with
    | Block.occlusion => loc_occ
    | Block.diffuse => loc_dif
    | Block.glossiness => loc_glo
    | Block.normal => loc_nrm
    | Block.specular => loc_spe
    | Block.emission => loc_emi,
   -y6)

/-- The layout pass of `calc_locations` before the centering shift: record
the running `(x, y)` for each block in order, decrementing `y` by the block
height (460) after each active block, exactly as in the Python; also return
`total_height = -y`. -/
def calc_raw (mh : MaterialHelper) (ext : Ext) : (Block → ℚ × ℚ) × ℚ :=
  layout mh.pymat.occlusion_texture (ext.diffuseTexture || mh.vertex_color)
    ext.specularGlossinessTexture.isSome mh.pymat.normal_texture
    mh.needs_emissive

/-- `calc_locations`: the raw stacked layout followed by the centering
shift `y_offset = total_height / 2 - 20 if total_height > 0 else 0` applied
to every block's y-coordinate. -/
def calc_locations (mh : MaterialHelper) (ext : Ext) : Block → ℚ × ℚ :=
  let raw := (calc_raw mh ext).1
  let total_height := (calc_raw mh ext).2
  let y_offset := if total_height > 0 then total_height / 2 - 20 else 0
  fun b => ((raw b).1, (raw b).2 + y_offset)

/-- The gate condition under which a block is active (its block consumes
vertical space), read off the `if` conditions of `calc_locations`. -/
def activeBlock (mh : MaterialHelper) (ext : Ext) : Block → Bool
  | Block.occlusion => mh.pymat.occlusion_texture
  | Block.diffuse => ext.diffuseTexture || mh.vertex_color
  | Block.glossiness => ext.specularGlossinessTexture.isSome
  | Block.normal => mh.pymat.normal_texture
  | Block.specular => ext.specularGlossinessTexture.isSome
  | Block.emission => mh.needs_emissive

/-- Modelled from the spec: a call into one of the sub-builders supplied by
sibling modules not among the shipped sources (`base_color`, `emission`,
`normal`, `occlusion` of `pbrMetallicRoughness.py`, and
`color_factor_and_texture` of `material_utils.py`).  This module only
chooses their arguments, so the model records the calls with the arguments
passed. -/
inductive ExtCall where
  | base_color (is_diffuse : Bool) (location : ℚ × ℚ) : ExtCall
  | emission (location : ℚ × ℚ) : ExtCall
  | normal (location : ℚ × ℚ) : ExtCall
  | occlusion (location : ℚ × ℚ) : ExtCall
  | color_factor_and_texture (location : ℚ × ℚ) (label : String)
      (factor : ℚ × ℚ × ℚ) (tex_info : Option TexVal) : ExtCall
deriving DecidableEq

/-- The outcome of `pbr_specular_glossiness` on one material: the (possibly
updated) shared settings node, whether `make_settings_node` was invoked,
the node graph built, and the recorded sub-builder calls. -/
structure PbrResult where
  settings_node : Option SettingsNode
  settings_created : Bool
  graph : GraphState
  calls : List ExtCall
deriving DecidableEq

/-- `pbr_specular_glossiness`: build the principled BSDF and output nodes,
link them, lay out the blocks, invoke the sub-builders, lazily create the
shared settings node for occlusion, set the IOR input default to 1000, and
run the glossiness converter on the Roughness input. -/
def pbr_specular_glossiness (mh : MaterialHelper) : PbrResult :=
  let ext := mh.get_ext
  let g0 := GraphState.init
  let pbrId := g0.nextId
  let g1 := addNode { id := pbrId, ntype := "ShaderNodeBsdfPrincipled",
                      location := (10, 300) } g0
  let outId := g1.nextId
  let g2 := addNode { id := outId, ntype := "ShaderNodeOutputMaterial",
                      location := (300, 300) } g1
  let g3 := addLink (Socket.outp pbrId 0) (Socket.inp outId 0) g2
  let locs := calc_locations mh ext
  let calls0 := [ExtCall.base_color true (locs Block.diffuse),
                 ExtCall.emission (locs Block.emission),
                 ExtCall.normal (locs Block.normal)]
  let st :=
    if mh.pymat.occlusion_texture then
      match mh.settings_node with
      | none =>
        (some { make_settings_node with location := (10, 425), width := 240 },
         true)
      | some sn => (some sn, false)
    else (mh.settings_node, false)
  let calls1 :=
    if mh.pymat.occlusion_texture then
      calls0 ++ [ExtCall.occlusion (locs Block.occlusion)]
    else calls0
  let g4 := setDefault (Socket.named pbrId "IOR") 1000 g3
  let calls2 := calls1 ++
    [ExtCall.color_factor_and_texture (locs Block.specular) "Specular Color"
      (ext.specularFactor.getD (1, 1, 1)) ext.specularGlossinessTexture]
  let g5 := glossiness ext (locs Block.glossiness)
    (Socket.named pbrId "Roughness") g4
  { settings_node := st.1, settings_created := st.2, graph := g5,
    calls := calls2 }

/-! ## Concrete inputs used by the witness theorems -/

/-- An extension dict with factor 0.3 and no texture key. -/
def extA : Ext := { glossinessFactor := some (3/10) }

/-- An extension dict with a bound texture and the factor key absent. -/
def extB : Ext := { specularGlossinessTexture := some (TexVal.texDict ⟨0⟩) }

/-- An extension dict with a bound texture and factor 0.5. -/
def extC : Ext :=
  { glossinessFactor := some (1/2),
    specularGlossinessTexture := some (TexVal.texDict ⟨0⟩) }

/-- A material helper with no textures, no vertex color, no emissive, no
extension and no settings node. -/
def mh0 : MaterialHelper :=
  { pymat := { occlusion_texture := false, normal_texture := false },
    vertex_color := false, needs_emissive := false, ext := none,
    settings_node := none }

/-- A settings node carried by the helper before the call, with a location
and width different from the ones a fresh settings node would get. -/
def sn0 : SettingsNode := { location := (5, 5), width := 100 }

/-- A material helper with an occlusion texture and an already present
settings node. -/
def mh2 : MaterialHelper :=
  { pymat := { occlusion_texture := true, normal_texture := false },
    vertex_color := false, needs_emissive := false, ext := none,
    settings_node := some sn0 }

/-- A material helper whose only active block gate is the occlusion
texture. -/
def mh1 : MaterialHelper :=
  { pymat := { occlusion_texture := true, normal_texture := false },
    vertex_color := false, needs_emissive := false, ext := none,
    settings_node := none }

/-- An extension dict whose `specularGlossinessTexture` key is present but
maps to Python `None` (a falsy value). -/
def extD : Ext := { specularGlossinessTexture := some TexVal.pyNone }

/-! ## Shared helper lemmas -/

/-- Unfolding lemma for `calc_locations` at one block. -/
theorem calc_locations_apply (mh : MaterialHelper) (ext : Ext) (b : Block) :
    calc_locations mh ext b =
      (((calc_raw mh ext).1 b).1,
       ((calc_raw mh ext).1 b).2 +
         (if (calc_raw mh ext).2 > 0 then (calc_raw mh ext).2 / 2 - 20
          else 0)) := rfl

/-- The three possible shapes of the socket-default list after
`glossiness`: no texture (roughness default set), texture with factor 1
(subtract input 0), texture with factor ≠ 1 (multiply input 1 on top). -/
theorem glossiness_defaults_cases (ext : Ext) (loc : ℚ × ℚ) (sock : Socket)
    (g : GraphState) :
    (glossiness ext loc sock g).socket_defaults =
        (sock, max 0 (min 1 (1 - ext.glossinessFactor.getD 1)))
          :: g.socket_defaults ∨
    (glossiness ext loc sock g).socket_defaults =
        (Socket.inp g.nextId 0, 1) :: g.socket_defaults ∨
    (glossiness ext loc sock g).socket_defaults =
        (Socket.inp (g.nextId + 1) 1, ext.glossinessFactor.getD 1)
          :: (Socket.inp g.nextId 0, 1) :: g.socket_defaults := by
  cases htex : boundTex ext with
  | none =>
    left
    simp [glossiness, htex, setDefault]
  | some ti =>
    by_cases hfac : ext.glossinessFactor.getD 1 = 1
    · right; left
      simp [glossiness, htex, hfac, texture, addNode, addLink, setDefault]
    · right; right
      simp [glossiness, htex, hfac, texture, addNode, addLink, setDefault]

/-! ## Claims -/

/-- C1: for every extension dict in which no `specularGlossinessTexture` is
bound, `glossiness` creates no nodes and no links and sets the destination
roughness socket's default scalar value to `clamp(1 - glossinessFactor, 0, 1)`,
the factor defaulting to 1.0 when the key is absent. -/
theorem claim_C1 (ext : Ext) (loc : ℚ × ℚ) (sock : Socket) (g : GraphState)
    (htex : boundTex ext = none) :
    (glossiness ext loc sock g).nodes = g.nodes ∧
    (glossiness ext loc sock g).links = g.links ∧
    (glossiness ext loc sock g).socket_defaults =
      (sock, max 0 (min 1 (1 - ext.glossinessFactor.getD 1)))
        :: g.socket_defaults := by
  simp [glossiness, htex, setDefault]

/-- Witness for C1: factor 0.3, no texture key; the roughness default
becomes 0.7. -/
theorem claim_C1_witness :
    boundTex extA = none ∧
    (glossiness extA (0, 0) (Socket.named 0 "Roughness")
        GraphState.init).socket_defaults =
      (Socket.named 0 "Roughness",
        max 0 (min 1 (1 - extA.glossinessFactor.getD 1)))
        :: GraphState.init.socket_defaults :=
  ⟨by decide,
   (claim_C1 extA (0, 0) (Socket.named 0 "Roughness") GraphState.init
      (by decide)).2.2⟩

/-- C2: with a bound texture and factor 1.0, `glossiness` creates exactly
one math node — a clamped SUBTRACT with input 0 defaulted to 1.0 and input 1
fed by the texture's alpha channel, the texture sampled as non-color data —
whose output is wired to the roughness socket; no MULTIPLY node is
created. -/
theorem claim_C2 (ext : Ext) (ti : TexRef) (loc : ℚ × ℚ) (sock : Socket)
    (g : GraphState)
    (htex : boundTex ext = some ti)
    (hfac : ext.glossinessFactor.getD 1 = 1) :
    (glossiness ext loc sock g).nodes = g.nodes ++
      [{ id := g.nextId, ntype := "ShaderNodeMath", label := "1 - Glossiness",
         operation := "SUBTRACT", location := (loc.1 - 140, loc.2 - 50),
         use_clamp := true },
       { id := g.nextId + 1, ntype := "ShaderNodeTexImage",
         label := "SPECULAR GLOSSINESS", location := (loc.1 - 340, loc.2),
         is_data := true, image := some ti.index }] ∧
    mathCount (glossiness ext loc sock g) = mathCount g + 1 ∧
    (glossiness ext loc sock g).links = g.links ++
      [(Socket.outp g.nextId 0, sock),
       (Socket.texAlpha (g.nextId + 1), Socket.inp g.nextId 1)] ∧
    (glossiness ext loc sock g).socket_defaults =
      (Socket.inp g.nextId 0, 1) :: g.socket_defaults ∧
    (∀ n ∈ (glossiness ext loc sock g).nodes,
       n.operation = "MULTIPLY" → n ∈ g.nodes) := by
  have hg : glossiness ext loc sock g =
      { nodes := g.nodes ++
          [{ id := g.nextId, ntype := "ShaderNodeMath",
             label := "1 - Glossiness", operation := "SUBTRACT",
             location := (loc.1 - 140, loc.2 - 50), use_clamp := true },
           { id := g.nextId + 1, ntype := "ShaderNodeTexImage",
             label := "SPECULAR GLOSSINESS", location := (loc.1 - 340, loc.2),
             is_data := true, image := some ti.index }],
        links := g.links ++
          [(Socket.outp g.nextId 0, sock),
           (Socket.texAlpha (g.nextId + 1), Socket.inp g.nextId 1)],
        socket_defaults := (Socket.inp g.nextId 0, 1) :: g.socket_defaults,
        nextId := g.nextId + 2 } := by
    simp [glossiness, htex, hfac, texture, addNode, addLink, setDefault]
  refine ⟨by rw [hg], ?_, by rw [hg], by rw [hg], ?_⟩
  · rw [hg]
    simp [mathCount, List.countP_append, List.countP_cons]
  · rw [hg]
    intro n hn hop
    rcases List.mem_append.1 hn with h | h
    · exact h
    · simp only [List.mem_cons, List.not_mem_nil, or_false] at h
      rcases h with h | h
      · rw [h] at hop
        exact ((show ("SUBTRACT" : String) ≠ "MULTIPLY" by decide) hop).elim
      · rw [h] at hop
        exact ((show ("" : String) ≠ "MULTIPLY" by decide) hop).elim

/-- Witness for C2: bound texture, factor key absent (so factor defaults
to 1.0); the subtract node's output is linked to the roughness socket and
its input 1 is fed by the texture alpha. -/
theorem claim_C2_witness :
    boundTex extB = some ⟨0⟩ ∧ extB.glossinessFactor.getD 1 = 1 ∧
    (glossiness extB (0, 0) (Socket.named 0 "Roughness")
        GraphState.init).links =
      GraphState.init.links ++
        [(Socket.outp 0 0, Socket.named 0 "Roughness"),
         (Socket.texAlpha 1, Socket.inp 0 1)] :=
  ⟨by decide, by decide,
   (claim_C2 extB ⟨0⟩ (0, 0) (Socket.named 0 "Roughness") GraphState.init
      (by decide) (by decide)).2.2.1⟩

/-- C3: with a bound texture and factor ≠ 1.0, `glossiness` creates exactly
two math nodes: a clamped MULTIPLY whose input 1 defaults to the factor and
whose input 0 is fed by the texture's alpha channel, its output wired to
input 1 of a clamped SUBTRACT with input 0 defaulted to 1.0, whose output is
wired to the roughness socket. -/
theorem claim_C3 (ext : Ext) (ti : TexRef) (loc : ℚ × ℚ) (sock : Socket)
    (g : GraphState)
    (htex : boundTex ext = some ti)
    (hfac : ext.glossinessFactor.getD 1 ≠ 1) :
    (glossiness ext loc sock g).nodes = g.nodes ++
      [{ id := g.nextId, ntype := "ShaderNodeMath", label := "1 - Glossiness",
         operation := "SUBTRACT", location := (loc.1 - 140, loc.2 - 50),
         use_clamp := true },
       { id := g.nextId + 1, ntype := "ShaderNodeMath",
         label := "Glossiness Factor", operation := "MULTIPLY",
         location := (loc.1 - 340, loc.2), use_clamp := true },
       { id := g.nextId + 2, ntype := "ShaderNodeTexImage",
         label := "SPECULAR GLOSSINESS", location := (loc.1 - 540, loc.2),
         is_data := true, image := some ti.index }] ∧
    mathCount (glossiness ext loc sock g) = mathCount g + 2 ∧
    (glossiness ext loc sock g).links = g.links ++
      [(Socket.outp g.nextId 0, sock),
       (Socket.outp (g.nextId + 1) 0, Socket.inp g.nextId 1),
       (Socket.texAlpha (g.nextId + 2), Socket.inp (g.nextId + 1) 0)] ∧
    (glossiness ext loc sock g).socket_defaults =
      (Socket.inp (g.nextId + 1) 1, ext.glossinessFactor.getD 1)
        :: (Socket.inp g.nextId 0, 1) :: g.socket_defaults := by
  have hg : glossiness ext loc sock g =
      { nodes := g.nodes ++
          [{ id := g.nextId, ntype := "ShaderNodeMath",
             label := "1 - Glossiness", operation := "SUBTRACT",
             location := (loc.1 - 140, loc.2 - 50), use_clamp := true },
           { id := g.nextId + 1, ntype := "ShaderNodeMath",
             label := "Glossiness Factor", operation := "MULTIPLY",
             location := (loc.1 - 340, loc.2), use_clamp := true },
           { id := g.nextId + 2, ntype := "ShaderNodeTexImage",
             label := "SPECULAR GLOSSINESS", location := (loc.1 - 540, loc.2),
             is_data := true, image := some ti.index }],
        links := g.links ++
          [(Socket.outp g.nextId 0, sock),
           (Socket.outp (g.nextId + 1) 0, Socket.inp g.nextId 1),
           (Socket.texAlpha (g.nextId + 2), Socket.inp (g.nextId + 1) 0)],
        socket_defaults :=
          (Socket.inp (g.nextId + 1) 1, ext.glossinessFactor.getD 1)
            :: (Socket.inp g.nextId 0, 1) :: g.socket_defaults,
        nextId := g.nextId + 3 } := by
    simp [glossiness, htex, hfac, texture, addNode, addLink, setDefault]
  refine ⟨by rw [hg], ?_, by rw [hg], by rw [hg]⟩
  rw [hg]
  simp [mathCount, List.countP_append, List.countP_cons]

/-- Witness for C3: bound texture, factor 0.5; the multiply node's input 1
defaults to 0.5 and the two math nodes are chained onto the roughness
socket. -/
theorem claim_C3_witness :
    boundTex extC = some ⟨0⟩ ∧ extC.glossinessFactor.getD 1 ≠ 1 ∧
    (glossiness extC (0, 0) (Socket.named 0 "Roughness")
        GraphState.init).socket_defaults =
      (Socket.inp 1 1, extC.glossinessFactor.getD 1)
        :: (Socket.inp 0 0, 1) :: GraphState.init.socket_defaults :=
  ⟨by decide, by norm_num [extC],
   (claim_C3 extC ⟨0⟩ (0, 0) (Socket.named 0 "Roughness") GraphState.init
      (by decide) (by norm_num [extC])).2.2.2⟩

/-- C4: the shared occlusion settings node is created at most once per
material: `make_settings_node` is invoked exactly when the helper's settings
node is `None` and the material has an occlusion texture, and an already
present settings node is reused. -/
theorem claim_C4 (mh : MaterialHelper) :
    ((pbr_specular_glossiness mh).settings_created =
      (mh.settings_node.isNone && mh.pymat.occlusion_texture)) ∧
    (∀ s, mh.settings_node = some s →
      (pbr_specular_glossiness mh).settings_node = some s) := by
  constructor
  · cases hocc : mh.pymat.occlusion_texture <;>
      cases hsn : mh.settings_node <;>
        simp [pbr_specular_glossiness, hocc, hsn]
  · intro s hs
    cases hocc : mh.pymat.occlusion_texture <;>
      simp [pbr_specular_glossiness, hocc, hs]

/-- Witness for C4: a material with an occlusion texture whose helper
already carries a settings node; nothing is created and the node is
reused. -/
theorem claim_C4_witness :
    (pbr_specular_glossiness mh2).settings_created =
      (mh2.settings_node.isNone && mh2.pymat.occlusion_texture) ∧
    (pbr_specular_glossiness mh2).settings_node = some sn0 :=
  ⟨(claim_C4 mh2).1, (claim_C4 mh2).2 sn0 rfl⟩

/-- C5: `pbr_specular_glossiness` sets the principled BSDF node's IOR input
default value to exactly 1000 for every material helper, hence regardless
of the extension's content. -/
theorem claim_C5 (mh : MaterialHelper) :
    lookupD (pbr_specular_glossiness mh).graph.socket_defaults
      (Socket.named 0 "IOR") = some 1000 := by
  have hgr : (pbr_specular_glossiness mh).graph =
      glossiness mh.get_ext (calc_locations mh mh.get_ext Block.glossiness)
        (Socket.named 0 "Roughness")
        { nodes := [{ id := 0, ntype := "ShaderNodeBsdfPrincipled",
                      location := (10, 300) },
                    { id := 1, ntype := "ShaderNodeOutputMaterial",
                      location := (300, 300) }],
          links := [(Socket.outp 0 0, Socket.inp 1 0)],
          socket_defaults := [(Socket.named 0 "IOR", 1000)],
          nextId := 2 } := rfl
  rw [hgr]
  rcases glossiness_defaults_cases mh.get_ext
      (calc_locations mh mh.get_ext Block.glossiness)
      (Socket.named 0 "Roughness") _ with h | h | h <;>
    rw [h] <;> simp [lookupD]

/-- C10: a settings node already carried by the helper is left unchanged by
`pbr_specular_glossiness`: its location and width fields keep their prior
values, since they are assigned only in the creating branch. -/
theorem claim_C10 (mh : MaterialHelper) (s : SettingsNode)
    (hs : mh.settings_node = some s) :
    (pbr_specular_glossiness mh).settings_node = some s ∧
    ((pbr_specular_glossiness mh).settings_node.map
      SettingsNode.location) = some s.location ∧
    ((pbr_specular_glossiness mh).settings_node.map
      SettingsNode.width) = some s.width := by
  have h : (pbr_specular_glossiness mh).settings_node = some s := by
    cases hocc : mh.pymat.occlusion_texture <;>
      simp [pbr_specular_glossiness, hocc, hs]
  exact ⟨h, by rw [h]; rfl, by rw [h]; rfl⟩

/-- Witness for C10: the pre-existing settings node of `mh2` keeps its
location (5, 5) and width 100. -/
theorem claim_C10_witness :
    (pbr_specular_glossiness mh2).settings_node = some sn0 ∧
    ((pbr_specular_glossiness mh2).settings_node.map
      SettingsNode.location) = some sn0.location ∧
    ((pbr_specular_glossiness mh2).settings_node.map
      SettingsNode.width) = some sn0.width :=
  claim_C10 mh2 sn0 rfl

/-- The gate condition of each block read off the five layout gates. -/
def activeGate (occ dif sg nrm emi : Bool) : Block → Bool
  | Block.occlusion => occ
  | Block.diffuse => dif
  | Block.glossiness => sg
  | Block.normal => nrm
  | Block.specular => sg
  | Block.emission => emi

/-- `activeBlock` is `activeGate` at the helper's and extension's gates. -/
theorem activeBlock_eq_gate (mh : MaterialHelper) (ext : Ext) (b : Block) :
    activeBlock mh ext b =
      activeGate mh.pymat.occlusion_texture
        (ext.diffuseTexture || mh.vertex_color)
        ext.specularGlossinessTexture.isSome mh.pymat.normal_texture
        mh.needs_emissive b := by
  cases b <;> rfl

/-- Integer shadow of the raw layout y-coordinate of each block; all raw
y values are integers, so this mirrors `layout` exactly and lets the
32-gate case analysis run by `decide` over ℤ. -/
def ilayout (occ dif sg nrm _emi : Bool) (b : Block) : ℤ :=
  let y0 : ℤ := 0
  let y1 := if occ then y0 - 460 else y0
  let y2 := if dif then y1 - 460 else y1
  let y3 := if sg then y2 - 460 else y2
  let y4 := if nrm then y3 - 460 else y3
  let y5 := if sg then y4 - 460 else y4
  match b with
  | Block.occlusion => y0
  | Block.diffuse => y1
  | Block.glossiness => y2
  | Block.normal => y3
  | Block.specular => y4
  | Block.emission => y5

/-- The raw layout x-coordinate is always -200. -/
theorem layout_x_eq (o d s n e : Bool) (b : Block) :
    ((layout o d s n e).1 b).1 = -200 := by
  cases b <;> rfl

/-- The raw layout y-coordinate is the cast of its integer shadow. -/
theorem layout_y_eq (o d s n e : Bool) (b : Block) :
    ((layout o d s n e).1 b).2 = ((ilayout o d s n e b : ℤ) : ℚ) := by
  cases b <;> simp only [layout, ilayout] <;> (try split_ifs) <;> norm_num

/-- Integer-shadow separation of distinct active blocks. -/
theorem ilayout_sep : ∀ (o d s n e : Bool) (b1 b2 : Block),
    activeGate o d s n e b1 = true → activeGate o d s n e b2 = true →
    b1 ≠ b2 → 460 ≤ |ilayout o d s n e b1 - ilayout o d s n e b2| := by
  decide

/-- Integer-shadow sharing: an inactive block and its successor have the
same y value. -/
theorem ilayout_share : ∀ (o d s n e : Bool) (b1 b2 : Block),
    nextBlock b1 = some b2 → activeGate o d s n e b1 = false →
    ilayout o d s n e b1 = ilayout o d s n e b2 := by
  decide

/-- Raw-layout separation: two distinct active blocks have raw
y-coordinates at least one block height (460) apart. -/
theorem layout_sep_aux (o d s n e : Bool) (b1 b2 : Block)
    (h1 : activeGate o d s n e b1 = true)
    (h2 : activeGate o d s n e b2 = true) (hne : b1 ≠ b2) :
    460 ≤ |((layout o d s n e).1 b1).2 - ((layout o d s n e).1 b2).2| := by
  rw [layout_y_eq, layout_y_eq]
  have h := ilayout_sep o d s n e b1 b2 h1 h2 hne
  have hcast : (((ilayout o d s n e b1 : ℤ) : ℚ)) - ((ilayout o d s n e b2 : ℤ) : ℚ)
      = ((ilayout o d s n e b1 - ilayout o d s n e b2 : ℤ) : ℚ) := by
    push_cast
    ring
  rw [hcast, ← Int.cast_abs]
  exact_mod_cast h

/-- Raw-layout sharing: an inactive block has the same raw location as the
block that follows it. -/
theorem layout_share_aux (o d s n e : Bool) (b1 b2 : Block)
    (hnx : nextBlock b1 = some b2)
    (h1 : activeGate o d s n e b1 = false) :
    (layout o d s n e).1 b1 = (layout o d s n e).1 b2 := by
  have hy := ilayout_share o d s n e b1 b2 hnx h1
  have hx1 : ((layout o d s n e).1 b1).1 = ((layout o d s n e).1 b2).1 := by
    rw [layout_x_eq, layout_x_eq]
  have hy1 : ((layout o d s n e).1 b1).2 = ((layout o d s n e).1 b2).2 := by
    rw [layout_y_eq, layout_y_eq, hy]
  exact Prod.ext hx1 hy1

/-- C7: `calc_locations` never overlaps two active blocks: distinct active
blocks have y-coordinates at least the block height 460 apart, while an
inactive block shares its location with the next block. -/
theorem claim_C7 (mh : MaterialHelper) (ext : Ext) :
    (∀ b1 b2 : Block, activeBlock mh ext b1 = true →
      activeBlock mh ext b2 = true → b1 ≠ b2 →
      460 ≤ |(calc_locations mh ext b1).2 - (calc_locations mh ext b2).2|) ∧
    (∀ b1 b2 : Block, nextBlock b1 = some b2 →
      activeBlock mh ext b1 = false →
      calc_locations mh ext b1 = calc_locations mh ext b2) := by
  constructor
  · intro b1 b2 h1 h2 hne
    rw [activeBlock_eq_gate] at h1 h2
    have hsep := layout_sep_aux mh.pymat.occlusion_texture
      (ext.diffuseTexture || mh.vertex_color)
      ext.specularGlossinessTexture.isSome mh.pymat.normal_texture
      mh.needs_emissive b1 b2 h1 h2 hne
    rw [calc_locations_apply, calc_locations_apply]
    have hc : calc_raw mh ext = layout mh.pymat.occlusion_texture
        (ext.diffuseTexture || mh.vertex_color)
        ext.specularGlossinessTexture.isSome mh.pymat.normal_texture
        mh.needs_emissive := rfl
    rw [hc]
    simpa using hsep
  · intro b1 b2 hnx h1
    rw [activeBlock_eq_gate] at h1
    have hsh := layout_share_aux mh.pymat.occlusion_texture
      (ext.diffuseTexture || mh.vertex_color)
      ext.specularGlossinessTexture.isSome mh.pymat.normal_texture
      mh.needs_emissive b1 b2 hnx h1
    rw [calc_locations_apply, calc_locations_apply]
    have hc : calc_raw mh ext = layout mh.pymat.occlusion_texture
        (ext.diffuseTexture || mh.vertex_color)
        ext.specularGlossinessTexture.isSome mh.pymat.normal_texture
        mh.needs_emissive := rfl
    rw [hc, hsh]

/-- Witness for C7: with only the occlusion block active, the occlusion and
(inactive) diffuse blocks illustrate both parts at concrete inputs. -/
theorem claim_C7_witness :
    activeBlock mh1 Ext.empty Block.occlusion = true ∧
    activeBlock mh1 Ext.empty Block.emission = false ∧
    nextBlock Block.diffuse = some Block.glossiness ∧
    activeBlock mh1 Ext.empty Block.diffuse = false ∧
    calc_locations mh1 Ext.empty Block.diffuse =
      calc_locations mh1 Ext.empty Block.glossiness :=
  ⟨rfl, rfl, rfl, rfl,
   (claim_C7 mh1 Ext.empty).2 Block.diffuse Block.glossiness rfl rfl⟩

/-- C6 counterexample: with no active block the total stacked height is 0
and the code applies a vertical shift of 0, not `total/2 - 20 = -20`; the
occlusion block stays at y = 0 instead of the claimed y = -20. -/
theorem claim_C6_counterexample :
    (calc_locations mh0 Ext.empty Block.occlusion).2 ≠
      ((calc_raw mh0 Ext.empty).1 Block.occlusion).2 +
        ((calc_raw mh0 Ext.empty).2 / 2 - 20) := by
  norm_num [calc_locations, calc_raw, layout, mh0, Ext.empty]

/-- C6 (amended): whenever the total stacked height is positive — that is,
at least one block is active — `calc_locations` shifts every block's
y-coordinate by half the total stacked height minus 20 units; with no
active block the shift is 0. -/
theorem claim_C6 (mh : MaterialHelper) (ext : Ext) (b : Block)
    (hpos : 0 < (calc_raw mh ext).2) :
    calc_locations mh ext b =
      (((calc_raw mh ext).1 b).1,
       ((calc_raw mh ext).1 b).2 + ((calc_raw mh ext).2 / 2 - 20)) := by
  rw [calc_locations_apply, if_pos hpos]

/-- Witness for C6: with exactly one active block (occlusion), the total
height 460 is positive and the shift applies to the diffuse block. -/
theorem claim_C6_witness :
    0 < (calc_raw mh1 Ext.empty).2 ∧
    calc_locations mh1 Ext.empty Block.diffuse =
      (((calc_raw mh1 Ext.empty).1 Block.diffuse).1,
       ((calc_raw mh1 Ext.empty).1 Block.diffuse).2 +
         ((calc_raw mh1 Ext.empty).2 / 2 - 20)) :=
  ⟨by norm_num [calc_raw, layout, mh1, Ext.empty],
   claim_C6 mh1 Ext.empty Block.diffuse
     (by norm_num [calc_raw, layout, mh1, Ext.empty])⟩

/-- C8: when the `glossinessFactor`, `specularFactor` and
`specularGlossinessTexture` keys are all absent, the module substitutes the
format defaults without erroring: the specular-color builder is called with
factor (1, 1, 1) and no texture, the roughness default becomes
`clamp(1 - 1, 0, 1) = 0`, and no texture or math node is created (the graph
keeps only the BSDF and output nodes). -/
theorem claim_C8 (mh : MaterialHelper)
    (h1 : mh.get_ext.glossinessFactor = none)
    (h2 : mh.get_ext.specularFactor = none)
    (h3 : mh.get_ext.specularGlossinessTexture = none) :
    ExtCall.color_factor_and_texture
        (calc_locations mh mh.get_ext Block.specular) "Specular Color"
        (1, 1, 1) none ∈ (pbr_specular_glossiness mh).calls ∧
    lookupD (pbr_specular_glossiness mh).graph.socket_defaults
        (Socket.named 0 "Roughness") = some 0 ∧
    (pbr_specular_glossiness mh).graph.nodes.length = 2 ∧
    mathCount (pbr_specular_glossiness mh).graph = 0 := by
  have htex : boundTex mh.get_ext = none := by
    simp [boundTex, h3]
  have hgr : (pbr_specular_glossiness mh).graph =
      glossiness mh.get_ext (calc_locations mh mh.get_ext Block.glossiness)
        (Socket.named 0 "Roughness")
        { nodes := [{ id := 0, ntype := "ShaderNodeBsdfPrincipled",
                      location := (10, 300) },
                    { id := 1, ntype := "ShaderNodeOutputMaterial",
                      location := (300, 300) }],
          links := [(Socket.outp 0 0, Socket.inp 1 0)],
          socket_defaults := [(Socket.named 0 "IOR", 1000)],
          nextId := 2 } := rfl
  have hc : (pbr_specular_glossiness mh).calls =
      (if mh.pymat.occlusion_texture then
         [ExtCall.base_color true (calc_locations mh mh.get_ext Block.diffuse),
          ExtCall.emission (calc_locations mh mh.get_ext Block.emission),
          ExtCall.normal (calc_locations mh mh.get_ext Block.normal)] ++
           [ExtCall.occlusion (calc_locations mh mh.get_ext Block.occlusion)]
       else
         [ExtCall.base_color true (calc_locations mh mh.get_ext Block.diffuse),
          ExtCall.emission (calc_locations mh mh.get_ext Block.emission),
          ExtCall.normal (calc_locations mh mh.get_ext Block.normal)]) ++
        [ExtCall.color_factor_and_texture
          (calc_locations mh mh.get_ext Block.specular) "Specular Color"
          (mh.get_ext.specularFactor.getD (1, 1, 1))
          mh.get_ext.specularGlossinessTexture] := rfl
  refine ⟨?_, ?_, ?_, ?_⟩
  · rw [hc]
    simp [h2, h3]
  · rw [hgr]
    simp [glossiness, htex, setDefault, lookupD, h1]
  · rw [hgr]
    simp [glossiness, htex, setDefault]
  · rw [hgr]
    simp [glossiness, htex, setDefault, mathCount, List.countP_cons]

/-- Witness for C8: a helper carrying no extension at all falls back to the
empty dict, whose three keys are all absent. -/
theorem claim_C8_witness :
    mh0.get_ext.glossinessFactor = none ∧
    mh0.get_ext.specularFactor = none ∧
    mh0.get_ext.specularGlossinessTexture = none ∧
    (ExtCall.color_factor_and_texture
        (calc_locations mh0 mh0.get_ext Block.specular) "Specular Color"
        (1, 1, 1) none ∈ (pbr_specular_glossiness mh0).calls ∧
     lookupD (pbr_specular_glossiness mh0).graph.socket_defaults
        (Socket.named 0 "Roughness") = some 0 ∧
     (pbr_specular_glossiness mh0).graph.nodes.length = 2 ∧
     mathCount (pbr_specular_glossiness mh0).graph = 0) :=
  ⟨rfl, rfl, rfl, claim_C8 mh0 rfl rfl rfl⟩

/-- Integer-shadow: with the `specularGlossinessTexture` key present the
normal block sits one block height below the glossiness block and the
emission block one block height below the specular block. -/
theorem ilayout_sg_advance (o d n e : Bool) :
    ilayout o d true n e Block.normal =
      ilayout o d true n e Block.glossiness - 460 ∧
    ilayout o d true n e Block.emission =
      ilayout o d true n e Block.specular - 460 := by
  revert o d n e
  decide

/-- C9: a `specularGlossinessTexture` key mapped to a falsy value (Python
`None` or an empty dict) makes `glossiness` behave as if no texture were
bound — no nodes, no links, the roughness default set to
`clamp(1 - factor, 0, 1)` — while `calc_locations` still treats the
glossiness and specular blocks as active (key-presence test) and advances
the y-coordinate after each of them. -/
theorem claim_C9 (mh : MaterialHelper) (ext : Ext) (v : TexVal)
    (loc : ℚ × ℚ) (sock : Socket) (g : GraphState)
    (hk : ext.specularGlossinessTexture = some v)
    (hv : v.truthy = false) :
    (glossiness ext loc sock g).nodes = g.nodes ∧
    (glossiness ext loc sock g).links = g.links ∧
    (glossiness ext loc sock g).socket_defaults =
      (sock, max 0 (min 1 (1 - ext.glossinessFactor.getD 1)))
        :: g.socket_defaults ∧
    activeBlock mh ext Block.glossiness = true ∧
    activeBlock mh ext Block.specular = true ∧
    (calc_locations mh ext Block.normal).2 =
      (calc_locations mh ext Block.glossiness).2 - 460 ∧
    (calc_locations mh ext Block.emission).2 =
      (calc_locations mh ext Block.specular).2 - 460 := by
  have htex : boundTex ext = none := by
    cases v with
    | pyNone => simp [boundTex, hk]
    | emptyDict => simp [boundTex, hk]
    | texDict t => exact absurd hv (by simp [TexVal.truthy])
  have hsg : ext.specularGlossinessTexture.isSome = true := by rw [hk]; rfl
  have hcr : calc_raw mh ext = layout mh.pymat.occlusion_texture
      (ext.diffuseTexture || mh.vertex_color) true
      mh.pymat.normal_texture mh.needs_emissive := by
    unfold calc_raw
    rw [hsg]
  refine ⟨?_, ?_, ?_, ?_, ?_, ?_, ?_⟩
  · simp [glossiness, htex, setDefault]
  · simp [glossiness, htex, setDefault]
  · simp [glossiness, htex, setDefault]
  · simp [activeBlock, hsg]
  · simp [activeBlock, hsg]
  · simp only [calc_locations_apply, hcr]
    rw [layout_y_eq, layout_y_eq,
      (ilayout_sg_advance mh.pymat.occlusion_texture
        (ext.diffuseTexture || mh.vertex_color)
        mh.pymat.normal_texture mh.needs_emissive).1]
    push_cast
    ring
  · simp only [calc_locations_apply, hcr]
    rw [layout_y_eq, layout_y_eq,
      (ilayout_sg_advance mh.pymat.occlusion_texture
        (ext.diffuseTexture || mh.vertex_color)
        mh.pymat.normal_texture mh.needs_emissive).2]
    push_cast
    ring

/-- Witness for C9: key present but mapped to Python `None`; no nodes are
created yet the glossiness block counts as active. -/
theorem claim_C9_witness :
    extD.specularGlossinessTexture = some TexVal.pyNone ∧
    TexVal.pyNone.truthy = false ∧
    (glossiness extD (0, 0) (Socket.named 0 "Roughness")
        GraphState.init).nodes = GraphState.init.nodes ∧
    activeBlock mh0 extD Block.glossiness = true :=
  ⟨rfl, rfl,
   (claim_C9 mh0 extD TexVal.pyNone (0, 0) (Socket.named 0 "Roughness")
      GraphState.init rfl rfl).1,
   (claim_C9 mh0 extD TexVal.pyNone (0, 0) (Socket.named 0 "Roughness")
      GraphState.init rfl rfl).2.2.2.1⟩

end SpecGloss
